import Mathlib

/-
A shallow embedding of the Shenandoah GC phase/session instrumentation layer
(src/hotspot/share/gc/shenandoah/shenandoahUtils.cpp).

The file embeds the scope-bound guards of that translation unit —
ShenandoahGCSession, ShenandoahGCPauseMark, ShenandoahGCPhase,
ShenandoahGCWorkerPhase and the ShenandoahWorkerSession family — as explicit
state transformers over a `GCState` record holding the process-wide
current-phase slot, the phase registry's accumulated totals, the per-thread
worker-identity slots, the collector's recorded GC cause, and an ordered log
of calls into the external collaborators (timer, tracer, heuristics, policy,
phase registry, structured event sink).  HotSpot `assert` checks are embedded
as Bool-valued functions where `true` means the assert passes; the debug
(ASSERT-enabled) build is modelled, so the `#ifdef ASSERT` body of
`~ShenandoahWorkerSession` is included.  Wall-clock timestamps
(`os::elapsedTime()`, `Ticks::now()`) are modelled as integers.
-/

namespace ShenandoahPhaseTimings

/-- Modelled from the spec: the phase identifiers form a fixed closed
enumeration known at build time, plus a sentinel; identifiers are totally
ordered solely to distinguish valid from sentinel (every valid identifier
compares below `num_phases`, the sentinel does not).  The enumeration lives in
shenandoahPhaseTimings.hpp, which is outside the given fragment, so valid
identifiers are represented by the naturals below `num_phases`. -/
def num_phases : Nat := 96

/-- Modelled from the spec: the sentinel value meaning "no phase"; it does not
compare below `num_phases`.  `ShenandoahGCPhase::_current_phase` is statically
initialized to it (shenandoahUtils.cpp line 39). -/
def invalid_phase : Nat := 97

/-- Modelled from the spec: the six root-work identifiers named in the switch
of `ShenandoahGCPhase::is_root_work_phase` (lines 120-132), given arbitrary
distinct valid ordinals since the enum itself is outside the fragment. -/
def scan_roots : Nat := 7

/-- Modelled from the spec: see `ShenandoahPhaseTimings.scan_roots`. -/
def update_roots : Nat := 12

/-- Modelled from the spec: see `ShenandoahPhaseTimings.scan_roots`. -/
def init_evac : Nat := 19

/-- Modelled from the spec: see `ShenandoahPhaseTimings.scan_roots`. -/
def final_update_refs_roots : Nat := 33

/-- Modelled from the spec: see `ShenandoahPhaseTimings.scan_roots`. -/
def degen_gc_update_roots : Nat := 41

/-- Modelled from the spec: see `ShenandoahPhaseTimings.scan_roots`. -/
def full_gc_roots : Nat := 57

/-- Modelled from the spec: `PhaseRegistry.name_of(phase_id) -> string`
(`ShenandoahPhaseTimings::phase_name`, outside the fragment). -/
def phase_name (p : Nat) : String := "phase-" ++ toString p

end ShenandoahPhaseTimings

/-- Modelled from the spec: the fixed GC-cause enumeration (`GCCause::Cause`).
Only the "no cause" member `_no_gc` is semantically distinguished by this
core; every other cause is represented by `cause n`. -/
inductive GCCause where
  | no_gc : GCCause
  | cause : Nat → GCCause
deriving DecidableEq, Repr

/-- Modelled from the spec: the structured event sink
`emit(cycle_id, [worker_index,] phase_name)`.  `concurrent` is the payload
committed by `~ShenandoahConcurrentWorkerSession` (cycle id and phase name),
`parallel` the payload committed by `~ShenandoahParallelWorkerSession`
(cycle id, worker index, phase name). -/
inductive TraceEvent where
  | concurrent : Nat → String → TraceEvent
  | parallel : Nat → Nat → String → TraceEvent
deriving DecidableEq, Repr

/-- One call into an external collaborator (timer, tracer, heuristics, policy,
phase registry, structured event sink), recorded in program order.  The
collaborators' internals are outside the fragment; the spec specifies them
only at their call boundary. -/
inductive GCAction where
  | set_gc_cause : GCCause → GCAction
  | timer_register_gc_start : GCAction
  | tracer_report_gc_start : GCCause → GCAction
  | trace_heap_before_gc : GCAction
  | policy_record_cycle_start : GCAction
  | heuristics_record_cycle_start : GCAction
  | trace_cycle_initialize : GCCause → GCAction
  | heuristics_record_cycle_end : GCAction
  | timer_register_gc_end : GCAction
  | trace_heap_after_gc : GCAction
  | tracer_report_gc_end : GCAction
  | timer_register_gc_pause_start : GCAction
  | trace_pause_initialize : GCCause → GCAction
  | heuristics_record_gc_start : GCAction
  | timer_register_gc_pause_end : GCAction
  | heuristics_record_gc_end : GCAction
  | record_workers_start : Nat → GCAction
  | record_workers_end : Nat → GCAction
  | record_phase_time : Nat → Int → GCAction
  | event_commit : TraceEvent → GCAction
deriving DecidableEq, Repr

/-- The mutable state touched by the embedded fragment: the process-wide
current-phase slot (`ShenandoahGCPhase::_current_phase`), the phase registry's
accumulated per-identifier totals, the per-thread worker-identity slots
(`ShenandoahThreadLocalData::worker_id`, with `none` standing for the
`INVALID_WORKER_ID` sentinel), the collector's recorded GC cause
(`ShenandoahHeap::gc_cause`), and the ordered log of collaborator calls. -/
structure GCState where
  current_phase : Nat
  phase_total : Nat → Int
  worker_ids : Nat → Option Nat
  gc_cause : GCCause
  log : List GCAction

/-- Record one collaborator call in program order. -/
def GCState.call (s : GCState) (a : GCAction) : GCState :=
  { s with log := s.log ++ [a] }

/-- The trace events committed so far, in commit order. -/
def GCState.events (s : GCState) : List TraceEvent :=
  s.log.filterMap (fun a =>
    match a with
    | GCAction.event_commit e => some e
    | _ => none)

/-- Startup state: `_current_phase` is statically initialized to
`_invalid_phase` (line 39), every worker-identity slot is unassigned, no GC
cause is recorded, no collaborator has been called. -/
def GCState.startup : GCState :=
  { current_phase := ShenandoahPhaseTimings.invalid_phase
    phase_total := fun _ => 0
    worker_ids := fun _ => none
    gc_cause := GCCause.no_gc
    log := [] }

/-- The thread-role predicates consulted by the `ShenandoahGCPhase`
constructor assert: `Thread::current()->is_Worker_thread()`,
`is_VM_thread()`, `is_ConcurrentGC_thread()` (lines 102-104). -/
structure ThreadRole where
  is_Worker_thread : Bool
  is_VM_thread : Bool
  is_ConcurrentGC_thread : Bool
deriving DecidableEq, Repr

/-- `ShenandoahHeap::set_gc_cause`, modelled from the spec as writing the
collector's recorded cause field (the heap class is outside the fragment). -/
def ShenandoahHeap.set_gc_cause (c : GCCause) (s : GCState) : GCState :=
  ({ s with gc_cause := c }).call (GCAction.set_gc_cause c)

/-- Modelled from the spec: `PhaseRegistry.add_duration(phase_id, elapsed)` —
`ShenandoahPhaseTimings::record_phase_time` (outside the fragment) adds the
elapsed time to the registry's accumulated total for that identifier. -/
def ShenandoahPhaseTimings.record_phase_time (p : Nat) (d : Int) (s : GCState) : GCState :=
  ({ s with
      phase_total := fun q => if q = p then s.phase_total q + d else s.phase_total q }).call
    (GCAction.record_phase_time p d)

/-- The thread-local worker-identity read
`ShenandoahThreadLocalData::worker_id(thr)`, modelled from the spec as a
per-thread slot; `none` is `INVALID_WORKER_ID`. -/
def ShenandoahThreadLocalData.worker_id (s : GCState) (tid : Nat) : Option Nat :=
  s.worker_ids tid

/-- The thread-local worker-identity write
`ShenandoahThreadLocalData::set_worker_id(thr, w)`, modelled from the spec. -/
def ShenandoahThreadLocalData.set_worker_id (tid : Nat) (w : Option Nat) (s : GCState) : GCState :=
  { s with worker_ids := fun t => if t = tid then w else s.worker_ids t }

/-- The per-object fields of a `ShenandoahGCPhase` guard: its phase
identifier `_phase`, the saved `_parent_phase`, and the `_start` timestamp. -/
structure ShenandoahGCPhase where
  phase : Nat
  parent_phase : Nat
  start : Int
deriving DecidableEq, Repr

/-- `ShenandoahGCPhase::current_phase()`: read the process-wide slot. -/
def ShenandoahGCPhase.current_phase (s : GCState) : Nat :=
  s.current_phase

/-- `ShenandoahGCPhase::is_current_phase_valid()` (lines 116-118):
`_current_phase < ShenandoahPhaseTimings::_num_phases`. -/
def ShenandoahGCPhase.is_current_phase_valid (s : GCState) : Bool :=
  decide (s.current_phase < ShenandoahPhaseTimings.num_phases)

/-- The `ShenandoahGCPhase` constructor assert (lines 102-105): the current
thread must not be a worker thread, and must be the VM thread or a
concurrent-GC thread.  `true` means the assert passes. -/
def ShenandoahGCPhase.ctor_assert (t : ThreadRole) : Bool :=
  !t.is_Worker_thread && (t.is_VM_thread || t.is_ConcurrentGC_thread)

/-- The construction effect of `ShenandoahGCPhase` (lines 106-108): save the
current-phase slot as `_parent_phase`, write the new phase into the slot, and
capture the start timestamp. -/
def ShenandoahGCPhase.construct (phase : Nat) (now : Int) (s : GCState) :
    ShenandoahGCPhase × GCState :=
  (⟨phase, s.current_phase, now⟩, { s with current_phase := phase })

/-- The destruction effect of `ShenandoahGCPhase` (lines 111-114): record
`now - _start` for `_phase` in the registry, then restore the current-phase
slot to `_parent_phase`. -/
def ShenandoahGCPhase.destruct (g : ShenandoahGCPhase) (now : Int) (s : GCState) : GCState :=
  let s1 := ShenandoahPhaseTimings.record_phase_time g.phase (now - g.start) s
  { s1 with current_phase := g.parent_phase }

/-- `ShenandoahGCPhase::is_root_work_phase()` (lines 120-132): the switch over
`current_phase()` returning `true` on the six root-work identifiers and
`false` on the default branch. -/
def ShenandoahGCPhase.is_root_work_phase (s : GCState) : Bool :=
  s.current_phase == ShenandoahPhaseTimings.scan_roots ||
  s.current_phase == ShenandoahPhaseTimings.update_roots ||
  s.current_phase == ShenandoahPhaseTimings.init_evac ||
  s.current_phase == ShenandoahPhaseTimings.final_update_refs_roots ||
  s.current_phase == ShenandoahPhaseTimings.degen_gc_update_roots ||
  s.current_phase == ShenandoahPhaseTimings.full_gc_roots

/-- The `ShenandoahGCSession` constructor assert (line 45):
`!ShenandoahGCPhase::is_current_phase_valid()` — "No current GC phase".
`true` means the assert passes. -/
def ShenandoahGCSession.ctor_assert (s : GCState) : Bool :=
  !(ShenandoahGCPhase.is_current_phase_valid s)

/-- The `ShenandoahGCSession` destructor assert (line 71), identical check to
the constructor's.  `true` means the assert passes. -/
def ShenandoahGCSession.dtor_assert (s : GCState) : Bool :=
  !(ShenandoahGCPhase.is_current_phase_valid s)

/-- The construction effects of `ShenandoahGCSession` (lines 41-64) in program
order: set the GC cause, register the cycle start with the timer, report it to
the tracer, snapshot the pre-cycle heap, notify policy and heuristics, and
initialize the cycle trace record. -/
def ShenandoahGCSession.construct (cause : GCCause) (s : GCState) : GCState :=
  ((((((ShenandoahHeap.set_gc_cause cause s).call
    GCAction.timer_register_gc_start).call
    (GCAction.tracer_report_gc_start cause)).call
    GCAction.trace_heap_before_gc).call
    GCAction.policy_record_cycle_start).call
    GCAction.heuristics_record_cycle_start).call
    (GCAction.trace_cycle_initialize cause)

/-- The destruction effects of `ShenandoahGCSession` (lines 66-73) in program
order: notify heuristics of cycle end, register the cycle end with the timer,
snapshot the post-cycle heap, report the cycle end to the tracer, and reset
the collector's recorded cause to `GCCause::_no_gc`. -/
def ShenandoahGCSession.destruct (s : GCState) : GCState :=
  ShenandoahHeap.set_gc_cause GCCause.no_gc
    ((((s.call GCAction.heuristics_record_cycle_end).call
      GCAction.timer_register_gc_end).call
      GCAction.trace_heap_after_gc).call
      GCAction.tracer_report_gc_end)

/-- The construction effects of `ShenandoahGCPauseMark` (lines 75-93):
register the pause start with the timer, initialize the pause trace record
with the heap's current GC cause, and notify heuristics of pause start. -/
def ShenandoahGCPauseMark.construct (s : GCState) : GCState :=
  ((s.call GCAction.timer_register_gc_pause_start).call
    (GCAction.trace_pause_initialize s.gc_cause)).call
    GCAction.heuristics_record_gc_start

/-- The destruction effects of `ShenandoahGCPauseMark` (lines 95-98): register
the pause end with the timer and notify heuristics of pause end. -/
def ShenandoahGCPauseMark.destruct (s : GCState) : GCState :=
  (s.call GCAction.timer_register_gc_pause_end).call
    GCAction.heuristics_record_gc_end

/-- The construction effect of `ShenandoahGCWorkerPhase` (lines 134-137):
record the workers-start timestamp for the phase in the registry. -/
def ShenandoahGCWorkerPhase.construct (phase : Nat) (s : GCState) : GCState :=
  s.call (GCAction.record_workers_start phase)

/-- The destruction effect of `ShenandoahGCWorkerPhase` (lines 139-141):
record the workers-end timestamp for the phase in the registry. -/
def ShenandoahGCWorkerPhase.destruct (phase : Nat) (s : GCState) : GCState :=
  s.call (GCAction.record_workers_end phase)

/-- The per-object field of a `ShenandoahWorkerSession`: the `_worker_id`
captured at construction (line 143). -/
structure ShenandoahWorkerSession where
  worker_id : Nat
deriving DecidableEq, Repr

/-- The `ShenandoahWorkerSession` constructor assert (line 145): the calling
thread's slot must currently hold `INVALID_WORKER_ID` ("Already set"
otherwise).  `true` means the assert passes. -/
def ShenandoahWorkerSession.ctor_assert (tid : Nat) (s : GCState) : Bool :=
  decide (ShenandoahThreadLocalData.worker_id s tid = none)

/-- The construction effect of `ShenandoahWorkerSession` (lines 143-147):
capture `_worker_id` and assign it to the calling thread's slot. -/
def ShenandoahWorkerSession.construct (wid tid : Nat) (s : GCState) :
    ShenandoahWorkerSession × GCState :=
  (⟨wid⟩, ShenandoahThreadLocalData.set_worker_id tid (some wid) s)

/-- The `ShenandoahWorkerSession` destructor assert (line 159, ASSERT build):
the slot must currently be assigned ("Must be set").  `true` means the assert
passes. -/
def ShenandoahWorkerSession.dtor_assert (tid : Nat) (s : GCState) : Bool :=
  decide (ShenandoahThreadLocalData.worker_id s tid ≠ none)

/-- The destruction effect of the `ShenandoahWorkerSession` base (lines
156-162, ASSERT build): reset the calling thread's slot to
`INVALID_WORKER_ID`. -/
def ShenandoahWorkerSession.destruct (tid : Nat) (s : GCState) : GCState :=
  ShenandoahThreadLocalData.set_worker_id tid none s

/-- The destruction effects of `ShenandoahConcurrentWorkerSession` (lines
149-151, then the base destructor): commit one event carrying
`GCId::current()` and the name of the currently active phase, then clear the
slot. -/
def ShenandoahConcurrentWorkerSession.destruct (gcid tid : Nat) (s : GCState) : GCState :=
  ShenandoahWorkerSession.destruct tid
    (s.call (GCAction.event_commit
      (TraceEvent.concurrent gcid
        (ShenandoahPhaseTimings.phase_name (ShenandoahGCPhase.current_phase s)))))

/-- The destruction effects of `ShenandoahParallelWorkerSession` (lines
153-155, then the base destructor): commit one event carrying
`GCId::current()`, the session's `_worker_id`, and the name of the currently
active phase, then clear the slot. -/
def ShenandoahParallelWorkerSession.destruct (sess : ShenandoahWorkerSession)
    (gcid tid : Nat) (s : GCState) : GCState :=
  ShenandoahWorkerSession.destruct tid
    (s.call (GCAction.event_commit
      (TraceEvent.parallel gcid sess.worker_id
        (ShenandoahPhaseTimings.phase_name (ShenandoahGCPhase.current_phase s)))))

/-- Well-nested programs of `ShenandoahGCPhase` scopes on the orchestrating
thread: `skip` does no phase work, `seq` runs two programs in order, and
`bracket p body` constructs a tracker for `p`, runs `body`, and destructs the
tracker — the C++ scope discipline in which every construction is matched by
a destruction in LIFO order. -/
inductive PhaseProgram where
  | skip : PhaseProgram
  | seq : PhaseProgram → PhaseProgram → PhaseProgram
  | bracket : Nat → PhaseProgram → PhaseProgram

/-- Run a well-nested program, threading an integer clock that advances by one
per step so that every construction and destruction sees a concrete
timestamp. -/
def runPhaseProgram : PhaseProgram → Int → GCState → Int × GCState
  | PhaseProgram.skip, clk, s => (clk + 1, s)
  | PhaseProgram.seq a b, clk, s =>
      let r := runPhaseProgram a clk s
      runPhaseProgram b r.1 r.2
  | PhaseProgram.bracket p body, clk, s =>
      let c := ShenandoahGCPhase.construct p clk s
      let r := runPhaseProgram body (clk + 1) c.2
      (r.1 + 1, ShenandoahGCPhase.destruct c.1 r.1 r.2)

/-- N sequential, non-overlapping `ShenandoahGCPhase` scopes for one phase
identifier: each pair `(t0, t1)` in the list is the start/end wall-clock of
one complete construct/destruct scope. -/
def runSequentialScopes (p : Nat) : List (Int × Int) → GCState → GCState
  | [], s => s
  | iv :: rest, s =>
      let c := ShenandoahGCPhase.construct p iv.1 s
      runSequentialScopes p rest (ShenandoahGCPhase.destruct c.1 iv.2 c.2)

/-- Complete (construct-then-destruct) `ShenandoahWorkerSession` scopes run in
sequence on one thread, one scope per listed worker index. -/
def runWorkerSessions (tid : Nat) (wids : List Nat) (s : GCState) : GCState :=
  List.foldl
    (fun st w =>
      ShenandoahWorkerSession.destruct tid (ShenandoahWorkerSession.construct w tid st).2)
    s wids

theorem runPhaseProgram_preserves_current_phase (prog : PhaseProgram) :
    ∀ (clk : Int) (s : GCState),
      (runPhaseProgram prog clk s).2.current_phase = s.current_phase := by
  induction prog with
  | skip => intro clk s; rfl
  | seq a b iha ihb =>
      intro clk s
      simp only [runPhaseProgram]
      rw [ihb, iha]
  | bracket p body ih =>
      intro clk s
      simp [runPhaseProgram, ShenandoahGCPhase.destruct,
        ShenandoahGCPhase.construct, ShenandoahPhaseTimings.record_phase_time,
        GCState.call]

/-- C1: for every well-nested tracker scope — a `ShenandoahGCPhase`
constructed for phase `p` around an arbitrary well-nested body, at arbitrary
nesting depth — the current-phase slot immediately after the tracker's
destruction equals the value the slot held immediately before the tracker's
construction (save-as-parent on entry, restore-parent on exit). -/
theorem shenandoahGCPhase_nesting_restores_slot
    (p : Nat) (body : PhaseProgram) (clk : Int) (s : GCState) :
    (runPhaseProgram (PhaseProgram.bracket p body) clk s).2.current_phase
      = s.current_phase :=
  runPhaseProgram_preserves_current_phase (PhaseProgram.bracket p body) clk s

/-- C2: the `ShenandoahGCSession` construction assert and destruction assert
both fail (evaluate to `false`) exactly when the current-phase slot holds a
valid (non-sentinel) phase, i.e. one comparing below `_num_phases`; when no
phase is active, neither check fires. -/
theorem shenandoahGCSession_phase_asserts (s : GCState) :
    (s.current_phase < ShenandoahPhaseTimings.num_phases →
      ShenandoahGCSession.ctor_assert s = false ∧
      ShenandoahGCSession.dtor_assert s = false) ∧
    (¬ s.current_phase < ShenandoahPhaseTimings.num_phases →
      ShenandoahGCSession.ctor_assert s = true ∧
      ShenandoahGCSession.dtor_assert s = true) := by
  constructor
  · intro h
    simp [ShenandoahGCSession.ctor_assert, ShenandoahGCSession.dtor_assert,
      ShenandoahGCPhase.is_current_phase_valid, h]
  · intro h
    simp [ShenandoahGCSession.ctor_assert, ShenandoahGCSession.dtor_assert,
      ShenandoahGCPhase.is_current_phase_valid, h]

theorem shenandoahGCSession_phase_asserts_witness :
    (ShenandoahGCSession.ctor_assert { GCState.startup with current_phase := 0 } = false ∧
      ShenandoahGCSession.dtor_assert { GCState.startup with current_phase := 0 } = false) ∧
    (ShenandoahGCSession.ctor_assert GCState.startup = true ∧
      ShenandoahGCSession.dtor_assert GCState.startup = true) :=
  ⟨(shenandoahGCSession_phase_asserts { GCState.startup with current_phase := 0 }).1
      (by decide),
   (shenandoahGCSession_phase_asserts GCState.startup).2
      (by simp [GCState.startup]; decide)⟩

theorem runWorkerSessions_keeps_unassigned (tid : Nat) (wids : List Nat) :
    ∀ s : GCState, s.worker_ids tid = none →
      (runWorkerSessions tid wids s).worker_ids tid = none := by
  induction wids with
  | nil => intro s h; exact h
  | cons w rest ih =>
      intro s h
      simp only [runWorkerSessions, List.foldl_cons]
      apply ih
      simp [ShenandoahWorkerSession.destruct, ShenandoahWorkerSession.construct,
        ShenandoahThreadLocalData.set_worker_id]

/-- C3: for every thread, the worker-identity slot read outside any
`ShenandoahWorkerSession` scope — at startup and after any sequence of
complete session scopes — yields the `INVALID_WORKER_ID` sentinel; inside a
scope it yields exactly the worker index passed at construction; and the
session's destruction always resets the slot to the sentinel. -/
theorem shenandoahWorkerSession_identity_slot
    (tid wid : Nat) (wids : List Nat) (s : GCState) :
    ShenandoahThreadLocalData.worker_id
        (ShenandoahWorkerSession.construct wid tid s).2 tid = some wid ∧
    ShenandoahThreadLocalData.worker_id
        (ShenandoahWorkerSession.destruct tid s) tid = none ∧
    ShenandoahThreadLocalData.worker_id GCState.startup tid = none ∧
    ShenandoahThreadLocalData.worker_id
        (runWorkerSessions tid wids GCState.startup) tid = none := by
  refine ⟨?_, ?_, rfl, ?_⟩
  · simp [ShenandoahWorkerSession.construct, ShenandoahThreadLocalData.set_worker_id,
      ShenandoahThreadLocalData.worker_id]
  · simp [ShenandoahWorkerSession.destruct, ShenandoahThreadLocalData.set_worker_id,
      ShenandoahThreadLocalData.worker_id]
  · exact runWorkerSessions_keeps_unassigned tid wids GCState.startup rfl

/-- C4: the `ShenandoahGCPhase` constructor assert fails for a worker thread
and for any thread that is neither the VM thread nor a concurrent-GC thread,
and passes for the orchestrating role (a non-worker thread that is the VM
thread or a concurrent-GC thread). -/
theorem shenandoahGCPhase_thread_role_assert (t : ThreadRole) :
    (t.is_Worker_thread = true → ShenandoahGCPhase.ctor_assert t = false) ∧
    (t.is_VM_thread = false ∧ t.is_ConcurrentGC_thread = false →
      ShenandoahGCPhase.ctor_assert t = false) ∧
    (t.is_Worker_thread = false ∧
        (t.is_VM_thread = true ∨ t.is_ConcurrentGC_thread = true) →
      ShenandoahGCPhase.ctor_assert t = true) := by
  obtain ⟨w, v, c⟩ := t
  cases w <;> cases v <;> cases c <;> simp [ShenandoahGCPhase.ctor_assert]

theorem shenandoahGCPhase_thread_role_assert_witness :
    ShenandoahGCPhase.ctor_assert ⟨true, false, false⟩ = false ∧
    ShenandoahGCPhase.ctor_assert ⟨false, false, false⟩ = false ∧
    ShenandoahGCPhase.ctor_assert ⟨false, true, false⟩ = true :=
  ⟨(shenandoahGCPhase_thread_role_assert ⟨true, false, false⟩).1 rfl,
   (shenandoahGCPhase_thread_role_assert ⟨false, false, false⟩).2.1 ⟨rfl, rfl⟩,
   (shenandoahGCPhase_thread_role_assert ⟨false, true, false⟩).2.2 ⟨rfl, Or.inl rfl⟩⟩

theorem runSequentialScopes_phase_total (p : Nat) (ivs : List (Int × Int)) :
    ∀ (s : GCState) (q : Nat),
      (runSequentialScopes p ivs s).phase_total q =
        if q = p then s.phase_total q + (ivs.map (fun iv => iv.2 - iv.1)).sum
        else s.phase_total q := by
  induction ivs with
  | nil => intro s q; simp [runSequentialScopes]
  | cons iv rest ih =>
      intro s q
      simp only [runSequentialScopes]
      rw [ih]
      simp only [ShenandoahGCPhase.destruct, ShenandoahGCPhase.construct,
        ShenandoahPhaseTimings.record_phase_time, GCState.call,
        List.map_cons, List.sum_cons]
      by_cases h : q = p
      · simp [h]
        ring
      · simp [h]

/-- C5: every `ShenandoahGCPhase` destruction adds exactly `now - start` for
its own phase identifier to the registry's accumulated total, so after N
sequential non-overlapping scopes for identifier `p` with start/end pairs
`ivs`, the accumulated total for `p` grows by the sum of the measured
wall-times, while the total of every other identifier is unchanged. -/
theorem shenandoahGCPhase_accumulates_duration
    (g : ShenandoahGCPhase) (now : Int) (p : Nat) (ivs : List (Int × Int))
    (s : GCState) (q : Nat) :
    (ShenandoahGCPhase.destruct g now s).phase_total q =
      (if q = g.phase then s.phase_total q + (now - g.start)
       else s.phase_total q) ∧
    (runSequentialScopes p ivs s).phase_total q =
      (if q = p then s.phase_total q + (ivs.map (fun iv => iv.2 - iv.1)).sum
       else s.phase_total q) := by
  refine ⟨?_, runSequentialScopes_phase_total p ivs s q⟩
  simp [ShenandoahGCPhase.destruct, ShenandoahPhaseTimings.record_phase_time,
    GCState.call]

/-- C6: on destruction, `ShenandoahConcurrentWorkerSession` commits exactly
one trace event carrying the cycle identifier and the name of the currently
active phase, and `ShenandoahParallelWorkerSession` commits exactly one event
additionally carrying the worker index captured at the session's
construction. -/
theorem workerSession_destruct_commits_one_event
    (gcid tid wid : Nat) (sess : ShenandoahWorkerSession) (s : GCState) :
    (ShenandoahWorkerSession.construct wid tid s).1.worker_id = wid ∧
    (ShenandoahConcurrentWorkerSession.destruct gcid tid s).events =
      s.events ++ [TraceEvent.concurrent gcid
        (ShenandoahPhaseTimings.phase_name (ShenandoahGCPhase.current_phase s))] ∧
    (ShenandoahParallelWorkerSession.destruct sess gcid tid s).events =
      s.events ++ [TraceEvent.parallel gcid sess.worker_id
        (ShenandoahPhaseTimings.phase_name (ShenandoahGCPhase.current_phase s))] := by
  refine ⟨rfl, ?_, ?_⟩ <;>
  simp [ShenandoahConcurrentWorkerSession.destruct,
      ShenandoahParallelWorkerSession.destruct, ShenandoahWorkerSession.destruct,
      ShenandoahThreadLocalData.set_worker_id, GCState.events, GCState.call,
      List.filterMap_append]

/-- C7: `ShenandoahGCSession` destruction performs, in program order, the
heuristics cycle-end notification, the timer cycle-end registration, the
post-cycle heap snapshot, the tracer cycle-end report, and finally the reset
of the collector's recorded cause to `_no_gc`; hence after the session closes
the cause field no longer holds the (non-`_no_gc`) cause passed at
construction. -/
theorem shenandoahGCSession_destruct_order (c : GCCause) (s : GCState) :
    (ShenandoahGCSession.destruct s).log =
      s.log ++ [GCAction.heuristics_record_cycle_end,
        GCAction.timer_register_gc_end, GCAction.trace_heap_after_gc,
        GCAction.tracer_report_gc_end, GCAction.set_gc_cause GCCause.no_gc] ∧
    (ShenandoahGCSession.destruct s).gc_cause = GCCause.no_gc ∧
    (c ≠ GCCause.no_gc →
      (ShenandoahGCSession.destruct (ShenandoahGCSession.construct c s)).gc_cause ≠ c) := by
  refine ⟨?_, rfl, ?_⟩
  · simp [ShenandoahGCSession.destruct, ShenandoahHeap.set_gc_cause, GCState.call]
  · intro h heq
    exact h heq.symm

theorem shenandoahGCSession_destruct_order_witness :
    (ShenandoahGCSession.destruct
        (ShenandoahGCSession.construct (GCCause.cause 0) GCState.startup)).gc_cause ≠
      GCCause.cause 0 :=
  (shenandoahGCSession_destruct_order (GCCause.cause 0) GCState.startup).2.2 (by decide)

/-- C8: `is_root_work_phase` is a pure lookup over the current-phase slot,
returning `true` exactly when the slot holds one of the six root-work
identifiers, and `false` on every other slot value, the sentinel included. -/
theorem shenandoahGCPhase_root_work_closed_set (s : GCState) :
    (ShenandoahGCPhase.is_root_work_phase s = true ↔
      (ShenandoahGCPhase.current_phase s = ShenandoahPhaseTimings.scan_roots ∨
       ShenandoahGCPhase.current_phase s = ShenandoahPhaseTimings.update_roots ∨
       ShenandoahGCPhase.current_phase s = ShenandoahPhaseTimings.init_evac ∨
       ShenandoahGCPhase.current_phase s = ShenandoahPhaseTimings.final_update_refs_roots ∨
       ShenandoahGCPhase.current_phase s = ShenandoahPhaseTimings.degen_gc_update_roots ∨
       ShenandoahGCPhase.current_phase s = ShenandoahPhaseTimings.full_gc_roots)) ∧
    ShenandoahGCPhase.is_root_work_phase
      { s with current_phase := ShenandoahPhaseTimings.invalid_phase } = false := by
  constructor
  · simp [ShenandoahGCPhase.is_root_work_phase, ShenandoahGCPhase.current_phase,
      or_assoc]
  · simp [ShenandoahGCPhase.is_root_work_phase, ShenandoahPhaseTimings.invalid_phase,
      ShenandoahPhaseTimings.scan_roots, ShenandoahPhaseTimings.update_roots,
      ShenandoahPhaseTimings.init_evac, ShenandoahPhaseTimings.final_update_refs_roots,
      ShenandoahPhaseTimings.degen_gc_update_roots, ShenandoahPhaseTimings.full_gc_roots]

/-- C9: `is_current_phase_valid` is the "a phase is currently active" query:
it is `false` at startup (the slot is statically the sentinel) and whenever
the slot holds the sentinel, `true` whenever the slot holds any valid
identifier (one comparing below `_num_phases`), and in general it holds
exactly when the slot compares below `_num_phases`. -/
theorem shenandoahGCPhase_validity_query (s : GCState) (v : Nat) :
    ShenandoahGCPhase.is_current_phase_valid GCState.startup = false ∧
    (s.current_phase = ShenandoahPhaseTimings.invalid_phase →
      ShenandoahGCPhase.is_current_phase_valid s = false) ∧
    (v < ShenandoahPhaseTimings.num_phases →
      ShenandoahGCPhase.is_current_phase_valid { s with current_phase := v } = true) ∧
    (ShenandoahGCPhase.is_current_phase_valid s = true ↔
      s.current_phase < ShenandoahPhaseTimings.num_phases) := by
  refine ⟨by decide, ?_, ?_, ?_⟩
  · intro h
    simp [ShenandoahGCPhase.is_current_phase_valid, h,
      ShenandoahPhaseTimings.invalid_phase, ShenandoahPhaseTimings.num_phases]
  · intro h
    simp [ShenandoahGCPhase.is_current_phase_valid, h]
  · simp [ShenandoahGCPhase.is_current_phase_valid]

theorem shenandoahGCPhase_validity_query_witness :
    ShenandoahGCPhase.is_current_phase_valid
        { GCState.startup with current_phase := 0 } = true ∧
    ShenandoahGCPhase.is_current_phase_valid GCState.startup = false :=
  ⟨(shenandoahGCPhase_validity_query GCState.startup 0).2.2.1 (by decide),
   (shenandoahGCPhase_validity_query GCState.startup 0).2.1 rfl⟩

/-- C10: constructing and destroying a `ShenandoahGCPauseMark` or a
`ShenandoahGCWorkerPhase` leaves the current-phase slot unchanged, for every
prior slot value — before the guard, during its lifetime, and after its
destruction the slot reads the same; the `ShenandoahGCSession` and
`ShenandoahWorkerSession` operations do not write the slot either, so only
`ShenandoahGCPhase` construction/destruction ever writes it. -/
theorem pauseMark_workerPhase_preserve_slot (p tid wid : Nat) (c : GCCause) (s : GCState) :
    (ShenandoahGCPauseMark.construct s).current_phase = s.current_phase ∧
    (ShenandoahGCPauseMark.destruct s).current_phase = s.current_phase ∧
    (ShenandoahGCPauseMark.destruct (ShenandoahGCPauseMark.construct s)).current_phase =
      s.current_phase ∧
    (ShenandoahGCWorkerPhase.construct p s).current_phase = s.current_phase ∧
    (ShenandoahGCWorkerPhase.destruct p s).current_phase = s.current_phase ∧
    (ShenandoahGCWorkerPhase.destruct p
        (ShenandoahGCWorkerPhase.construct p s)).current_phase = s.current_phase ∧
    (ShenandoahGCSession.construct c s).current_phase = s.current_phase ∧
    (ShenandoahGCSession.destruct s).current_phase = s.current_phase ∧
    ((ShenandoahWorkerSession.construct wid tid s).2).current_phase = s.current_phase ∧
    (ShenandoahWorkerSession.destruct tid s).current_phase = s.current_phase :=
  ⟨rfl, rfl, rfl, rfl, rfl, rfl, rfl, rfl, rfl, rfl⟩
